import Mathlib

/-!
Verification development for the ffgoconv repository (Go).

The definitions below are a shallow embedding of the repository's code:

* `MiniBuffer` and its operations model the `crunch.MiniBuffer` dependency
  (github.com/superwhiskers/crunch) exactly as that library behaves: a byte
  slice plus a single cursor `off` shared by reads and writes;
  `AfterByte` reports `len - off - 1` (so a fresh buffer reports `-1`,
  which is why the wrapper's `Read` guards against a negative length);
  `Grow` appends zero bytes; `WriteBytesNext` overwrites at the cursor and
  advances it; `ReadBytesNext` exposes the bytes at the cursor and advances it.
  Bytes are modelled as `Nat` values (the code never relies on the 0..255
  bound) and the buffer as a `List Nat`.
* `cmbRead` / `cmbWrite` / `cmbLen` embed the `CrunchMiniBuffer` wrapper
  methods `Read` / `Write` / `Len`.
* `assembleFrame` / `firstFrame` embed the frame-assembly loop of
  `TranscodeSession.readStdout` (transcoder.go), with the external process's
  stdout modelled as the list of bytes it will produce.
* `TranscodeOptions`, `validate`, `buildArgs` and the session state machine
  functions embed the corresponding parts of transcoder.go.
* `mixCollected`, `binaryLittleEndianUint16`, `mutexAcquire` and the
  `removeSourceOutcome` family embed the mixing loop of `MuxSession.Start`
  and `MuxSession.RemoveSource`.
-/

namespace Ffgoconv

/-- Model of `crunch.MiniBuffer`: a growable byte slice with one cursor
(`off`) used by both reads and writes. -/
structure MiniBuffer where
  buf : List Nat
  off : Nat
deriving DecidableEq, Repr

/-- Model of `crunch.MiniBuffer.AfterByte` with no explicit offset: the
number of bytes located after the current byte, `len - off - 1`.  On a fresh
empty buffer this is `-1`. -/
def MiniBuffer.afterByte (b : MiniBuffer) : Int :=
  (b.buf.length : Int) - (b.off : Int) - 1

/-- Model of `crunch.MiniBuffer.Grow`: append `n` zero bytes. -/
def MiniBuffer.grow (b : MiniBuffer) (n : Nat) : MiniBuffer :=
  { b with buf := b.buf ++ List.replicate n 0 }

/-- Model of `crunch.MiniBuffer.WriteBytesNext`: overwrite `data` at the
cursor and advance the cursor past it.  The repository only calls it after
growing the buffer enough, so the in-bounds overwrite below is exact there. -/
def MiniBuffer.writeBytesNext (b : MiniBuffer) (data : List Nat) : MiniBuffer :=
  { buf := b.buf.take b.off ++ data ++ b.buf.drop (b.off + data.length),
    off := b.off + data.length }

/-- Model of `crunch.MiniBuffer.ReadBytesNext`: expose the `n` bytes at the
cursor and advance the cursor past them. -/
def MiniBuffer.readBytesNext (b : MiniBuffer) (n : Nat) : MiniBuffer × List Nat :=
  ({ b with off := b.off + n }, (b.buf.drop b.off).take n)

/-- Model of `crunch.MiniBuffer.Bytes`: the whole underlying slice. -/
def MiniBuffer.bytesAll (b : MiniBuffer) : List Nat :=
  b.buf

/-- Model of `crunch.NewMiniBuffer(&buf, nil)`: empty slice, cursor 0. -/
def freshMiniBuffer : MiniBuffer :=
  { buf := [], off := 0 }

/-- Model of `crunch.MiniBuffer.WriteU16LENext`: write each 16-bit value as
two little-endian bytes at the cursor. -/
def MiniBuffer.writeU16LENext (b : MiniBuffer) (vs : List Nat) : MiniBuffer :=
  b.writeBytesNext (vs.flatMap fun v => [v % 256, v / 256 % 256])

/-- The Go error values returned by the `CrunchMiniBuffer` wrapper methods. -/
inductive GoError where
  | eof
  | emptyReadTarget
  | negativeIndice
  | emptyWriteSource
deriving DecidableEq, Repr

/-- Model of `CrunchMiniBuffer.Len` (part_000 lines 54-59):
`AfterByte` truncated to `int`. -/
def cmbLen (b : MiniBuffer) : Int :=
  b.afterByte

/-- Result of a wrapper `Read`: the new buffer state, the bytes the buffer
exposed via `ReadBytesNext`, the returned count `n`, and the returned error. -/
structure ReadResult where
  state : MiniBuffer
  data : List Nat
  n : Nat
  err : Option GoError
deriving DecidableEq, Repr

/-- Model of `CrunchMiniBuffer.Read` (part_000 lines 15-37): errors on an
empty destination, reports `io.EOF` when `Len()` is zero, errors when it is
negative, otherwise reads `min(len(p), Len())` bytes at the cursor. -/
def cmbRead (b : MiniBuffer) (plen : Nat) : ReadResult :=
  if plen = 0 then ⟨b, [], 0, some GoError.emptyReadTarget⟩
  else
    let length := cmbLen b
    if length = 0 then ⟨b, [], 0, some GoError.eof⟩
    else if length < 0 then ⟨b, [], 0, some GoError.negativeIndice⟩
    else if length < (plen : Int) then
      let r := b.readBytesNext length.toNat
      ⟨r.1, r.2, length.toNat, none⟩
    else
      let r := b.readBytesNext plen
      ⟨r.1, r.2, plen, none⟩

/-- Model of `CrunchMiniBuffer.Write` (part_000 lines 40-52): errors on an
empty source, grows by `len(p) - Len()` when `Len()` is insufficient, then
writes at the cursor; returns `(len(p), nil)`. -/
def cmbWrite (b : MiniBuffer) (p : List Nat) : MiniBuffer × Nat × Option GoError :=
  if p.length = 0 then (b, 0, some GoError.emptyWriteSource)
  else
    let length := cmbLen b
    let b2 := if length < (p.length : Int) then b.grow ((p.length : Int) - length).toNat else b
    (b2.writeBytesNext p, p.length, none)

/-- Inner loop of `TranscodeSession.readStdout` (transcoder.go lines 360-387):
starting from a frame buffer `fw`, repeatedly read one byte from the process
stdout (modelled as the list `stream`) and write it into the frame buffer,
until the wrapper length reaches zero or the stream ends.  Returns the frame
buffer, the unconsumed remainder of the stream, and `bytesRead`. -/
def assembleFrame (fw : MiniBuffer) (bytesRead : Nat) :
    List Nat → MiniBuffer × List Nat × Nat
  | [] => (fw, [], bytesRead)
  | t :: rest =>
    if cmbLen fw = 0 then (fw, t :: rest, bytesRead)
    else assembleFrame (cmbWrite fw [t]).1 (bytesRead + 1) rest

/-- One outer iteration of `TranscodeSession.readStdout` (transcoder.go lines
351-401): assemble a frame from a fresh buffer; if no byte was read the
reader returns (no frame), otherwise the frame payload is the whole
underlying slice obtained via `Bytes`. -/
def firstFrame (stream : List Nat) : Option (List Nat) :=
  let r := assembleFrame freshMiniBuffer 0 stream
  if r.2.2 = 0 then none else some r.1.bytesAll

/-- Stream remainder left by the first `readStdout` iteration. -/
def firstFrameRest (stream : List Nat) : List Nat :=
  (assembleFrame freshMiniBuffer 0 stream).2.1

/-- Embedding of `TranscodeOptions` (transcoder.go lines 32-51).  Go `int`
fields become `Int`; `AudioApplication` is a string type in the source, so
`Application` is a `String` here.  Field defaults are the Go zero values, so
a Lean structure literal matches a Go composite literal with omitted fields. -/
structure TranscodeOptions where
  Codec : String := ("")
  Format : String := ("")
  Volume : Int := 0
  Channels : Int := 0
  SampleRate : Int := 0
  FrameDuration : Int := 0
  Bitrate : Int := 0
  PacketLoss : Int := 0
  Application : String := ("")
  CoverFormat : String := ("")
  CompressionLevel : Int := 0
  BufferedFrames : Int := 0
  VBR : Bool := false
  Threads : Int := 0
  AudioFilter : String := ("")
deriving DecidableEq, Repr

/-- Embedding of `TranscodeOptions.PCMFrameLen` (transcoder.go lines 53-55):
`960 * Channels * (FrameDuration / 20)` with Go's truncating division. -/
def pcmFrameLen (opt : TranscodeOptions) : Int :=
  960 * opt.Channels * Int.tdiv opt.FrameDuration 20

/-- The validation errors produced by `TranscodeOptions.Validate`, one
constructor per distinct error message in the source. -/
inductive ValidationError where
  | volumeOutOfBounds
  | invalidFrameDuration
  | invalidPacketLoss
  | invalidAudioApplication
  | compressionLevelOutOfBounds
  | negativeThreadCount
deriving DecidableEq, Repr

/-- Embedding of `TranscodeOptions.Validate` (transcoder.go lines 57-83):
the exact sequence of range checks from the source.  Note the source never
checks `Bitrate`, `Channels` or `SampleRate`. -/
def validate (opt : TranscodeOptions) : Option ValidationError :=
  if opt.Volume < 0 ∨ opt.Volume > 512 then some ValidationError.volumeOutOfBounds
  else if opt.FrameDuration ≠ 20 ∧ opt.FrameDuration ≠ 40 ∧ opt.FrameDuration ≠ 60 then
    some ValidationError.invalidFrameDuration
  else if opt.PacketLoss < 0 ∨ opt.PacketLoss > 100 then some ValidationError.invalidPacketLoss
  else if opt.Application ≠ ("audio") ∧ opt.Application ≠ ("voip") ∧
      opt.Application ≠ ("lowdelay") ∧ opt.Application ≠ ("") then
    some ValidationError.invalidAudioApplication
  else if opt.CompressionLevel < 0 ∨ opt.CompressionLevel > 10 then
    some ValidationError.compressionLevelOutOfBounds
  else if opt.Threads < 0 then some ValidationError.negativeThreadCount
  else none

/-- Embedding of `StdTranscodeOptions` (transcoder.go lines 86-99). -/
def stdTranscodeOptions : TranscodeOptions :=
  { Codec := ("pcm_s16le"), Format := ("s16le"), Volume := 256, Channels := 2,
    SampleRate := 48000, FrameDuration := 20, Bitrate := 128,
    Application := ("audio"), CompressionLevel := 10, PacketLoss := 1,
    BufferedFrames := 100, VBR := true }

/-- Embedding of `RawTranscodeOptions` (transcoder.go lines 102-111). -/
def rawTranscodeOptions : TranscodeOptions :=
  { Codec := ("pcm_s16le"), Format := ("s16le"), Volume := 256, Channels := 2,
    SampleRate := 48000, FrameDuration := 20, Bitrate := 128,
    BufferedFrames := 100 }

/-- Embedding of `TranscodeMem` / `TranscodeFile` up to the point the session
is created and `go session.run()` is launched (transcoder.go lines 145-175):
a validation error is returned before any session or process exists, so
`Except.ok` means exactly that the run goroutine (and thus the external
process spawn) is initiated. -/
def transcodeMemConstruct (opt : TranscodeOptions) : Except ValidationError Unit :=
  match validate opt with
  | some e => Except.error e
  | none => Except.ok ()

/-- Embedding of the `vbrStr` computation in `TranscodeSession.run`
(transcoder.go lines 201-204). -/
def vbrStr (opt : TranscodeOptions) : String :=
  if opt.VBR then ("on") else ("off")

/-- Embedding of the FFmpeg argument construction in `TranscodeSession.run`
(transcoder.go lines 207-238): the fixed argument list followed by the four
conditional flag pairs and the trailing output pipe, using Go's
`strconv.Itoa` rendered as `toString` on `Int`. -/
def buildArgs (inFile : String) (opt : TranscodeOptions) : List String :=
  let args := ["-stats", "-i", inFile, "-map", "0:a",
    "-acodec", opt.Codec, "-f", opt.Format, "-vbr", vbrStr opt,
    "-vol", toString opt.Volume, "-ar", toString opt.SampleRate,
    "-ac", toString opt.Channels, "-b:a", toString (opt.Bitrate * 1000),
    "-frame_duration", toString opt.FrameDuration, "-threads", toString opt.Threads]
  let args := if opt.CompressionLevel > 0 then
    args ++ ["-compression_level", toString opt.CompressionLevel] else args
  let args := if opt.Application ≠ ("") then
    args ++ ["-application", opt.Application] else args
  let args := if opt.PacketLoss > 0 then
    args ++ ["-packet_loss", toString opt.PacketLoss] else args
  let args := if opt.AudioFilter ≠ ("") then
    args ++ ["-af", opt.AudioFilter] else args
  args ++ ["pipe:1"]

/-- The three places the spawn phase of `TranscodeSession.run` can fail
(transcoder.go lines 246-265): the stdout pipe, the stderr pipe, or
`ffmpeg.Start()`. -/
inductive SpawnErr where
  | stdoutPipeFail
  | stderrPipeFail
  | startFail
deriving DecidableEq, Repr

/-- The session fields observable after the spawn phase of
`TranscodeSession.run`: whether `frameChannel` was closed, the stored
`session.err` (what `Error()` returns), and `session.running` once `run`
has returned (the deferred reset at lines 179-183). -/
structure SpawnFailState where
  queueClosed : Bool
  storedErr : Option SpawnErr
  running : Bool
deriving DecidableEq, Repr

/-- Embedding of the spawn phase of `TranscodeSession.run` (transcoder.go
lines 246-270 plus the deferred reset at 179-183).  Each failure branch in
the source unlocks, closes `frameChannel` and returns; none of them assigns
`session.err`.  On success the queue stays open and the session keeps
running. -/
def runSpawnPhase (stdoutPipeErr stderrPipeErr startErr : Bool) : SpawnFailState :=
  if stdoutPipeErr then ⟨true, none, false⟩
  else if stderrPipeErr then ⟨true, none, false⟩
  else if startErr then ⟨true, none, false⟩
  else ⟨false, none, true⟩

/-- Embedding of `TranscodeSession.ReadFrame` (transcoder.go lines 415-425)
as one receive step on the frame queue: a queued frame is returned, a closed
empty queue yields the `nil` sentinel which `ReadFrame` turns into `io.EOF`
(`Except.error ()`), and an open empty queue blocks (`none`). -/
def readFrameStep (closed : Bool) (queue : List (List Nat)) :
    Option (Except Unit (List Nat)) :=
  match queue with
  | f :: _ => some (Except.ok f)
  | [] => if closed then some (Except.error ()) else none

/-- The session state consulted by `TranscodeSession.Stop`. -/
structure SessionState where
  running : Bool
  hasProcess : Bool
  storedErr : Option SpawnErr
deriving DecidableEq, Repr

/-- The error `Stop` returns when there is nothing to stop. -/
inductive StopErr where
  | notRunning
deriving DecidableEq, Repr

/-- Embedding of `TranscodeSession.Stop` (transcoder.go lines 404-413):
returns the unchanged session state, the returned error, and whether a kill
signal was sent to the owned process. -/
def stop (s : SessionState) : SessionState × Option StopErr × Bool :=
  if s.running = false ∨ s.hasProcess = false then (s, some StopErr.notRunning, false)
  else (s, none, true)

/-- The two shapes of a non-nil `ffmpeg.Wait()` error as the source
distinguishes them (transcoder.go lines 279-287): the deliberate-stop
signal message `signal: killed`, or anything else. -/
inductive ExitErr where
  | signalKilled
  | other
deriving DecidableEq, Repr

/-- Session error restricted to exit errors, for the end of `run`. -/
structure ExitState where
  storedErr : Option ExitErr
deriving DecidableEq, Repr

/-- Embedding of the `ffmpeg.Wait()` error handling at the end of
`TranscodeSession.run` (transcoder.go lines 279-287): a nil error stores
nothing, the `signal: killed` error (a deliberate `Stop`) stores nothing,
any other error is stored in `session.err`. -/
def storeExitErr (s : ExitState) (exitErr : Option ExitErr) : ExitState :=
  match exitErr with
  | none => s
  | some e => if e = ExitErr.signalKilled then s else { storedErr := some e }

/-- Go's `int16(x)` conversion of an `int64`: keep the low 16 bits and
reinterpret them as a signed value. -/
def goInt16 (v : Int) : Int :=
  let r := v % 65536
  if r < 32768 then r else r - 65536

/-- Embedding of the mixing arithmetic in `MuxSession.Start` (part_000 lines
248-257): accumulate the collected samples into an `int64`, divide by the
sample count with Go's truncating division, and narrow the quotient back to
`int16`.  No source volume enters this computation anywhere in the loop. -/
def mixCollected (samples : List Int) : Int :=
  goInt16 (Int.tdiv (samples.foldl (· + ·) 0) (samples.length : Int))

/-- Embedding of `binary.LittleEndian.Uint16` (encoding/binary): defined for
a slice of at least two bytes; on a shorter slice, the Go function panics
with an index-out-of-range, modelled as `none`. -/
def binaryLittleEndianUint16 (b : List Nat) : Option Nat :=
  match b with
  | b0 :: b1 :: _ => some (b0 + 256 * b1)
  | _ => none

/-- The per-source read buffer of the mixing loop, `sample := make([]byte, 1)`
(part_000 line 222): a single zero byte. -/
def muxSampleBuf : List Nat :=
  List.replicate 1 0

/-- Acquiring a Go `sync.Mutex`: the mutex is not reentrant, so an acquire by
the goroutine that already holds it blocks forever (`none`). -/
def mutexAcquire (held : Bool) : Option Unit :=
  if held then none else some ()

/-- Embedding of `MuxSession.RemoveSource` (part_000 lines 194-206) with the
engine mutex state explicit: the method first acquires `muxer.Lock()`, then
removes the first source with the matching identifier; the boolean reports
whether the identifier was found (`false` means the `invalid identifier`
error).  `none` means the acquire blocked forever. -/
def removeSourceOutcome (held : Bool) (sources : List Nat) (id : Nat) :
    Option (List Nat × Bool) :=
  match mutexAcquire held with
  | none => none
  | some _ => some (sources.erase id, decide (id ∈ sources))

/-- The end-of-stream branch of the mixing loop in `MuxSession.Start`
(part_000 lines 225-233): it runs between the loop's `muxer.Lock()` (line
211) and `muxer.Unlock()` (line 242), so `RemoveSource` is entered with the
engine mutex already held by this same goroutine. -/
def muxLoopEOFBranch (sources : List Nat) (id : Nat) : Option (List Nat × Bool) :=
  removeSourceOutcome true sources id

/-- Outcome of calling `TranscodeMem`/`TranscodeFile` with a possibly-nil
options pointer, modelled as `Option TranscodeOptions`. -/
inductive ConstructOutcome where
  | panicNilDeref
  | failed (e : ValidationError)
  | constructed (options : Option TranscodeOptions)
deriving DecidableEq, Repr

/-- `opt.Validate()` on a possibly-nil receiver: the method body immediately
reads `opt.Volume` (transcoder.go line 58), so a nil receiver panics with a
nil dereference before any range check runs. -/
def validateNilable (opts : Option TranscodeOptions) : Except Unit (Option ValidationError) :=
  match opts with
  | none => Except.error ()
  | some o => Except.ok (validate o)

/-- Embedding of `TranscodeMem` (transcoder.go lines 145-159) over a
possibly-nil options pointer: `options.Validate()` runs first, so a nil
pointer panics; a validation error is returned; otherwise the session is
constructed carrying exactly the supplied options pointer. -/
def transcodeMemGo (opts : Option TranscodeOptions) : ConstructOutcome :=
  match validateNilable opts with
  | Except.error () => ConstructOutcome.panicNilDeref
  | Except.ok (some e) => ConstructOutcome.failed e
  | Except.ok none => ConstructOutcome.constructed opts

/-- Embedding of `TranscodeFile` (transcoder.go lines 161-175); identical to
`TranscodeMem` in everything the options pointer can influence. -/
def transcodeFileGo (opts : Option TranscodeOptions) : ConstructOutcome :=
  match validateNilable opts with
  | Except.error () => ConstructOutcome.panicNilDeref
  | Except.ok (some e) => ConstructOutcome.failed e
  | Except.ok none => ConstructOutcome.constructed opts

/-- The nil-options default inside `TranscodeSession.run` (transcoder.go
lines 197-199): replace a nil options pointer with `StdTranscodeOptions`. -/
def runOptionsResolved (sessionOptions : Option TranscodeOptions) : TranscodeOptions :=
  sessionOptions.getD stdTranscodeOptions

/-- C1: the mixing loop of `MuxSession.Start` computes the appended sample as
the truncated arithmetic mean of the raw collected samples — no source volume
enters the computation (`mixCollected` has no volume input because lines
248-257 of part_000 consult none).  A single source with volume 0.5 producing
the constant sample 100 therefore yields 100, not the volume-scaled mean 50
that the claim requires. -/
theorem mux_mix_ignores_volume_eval :
    mixCollected [100] = 100 ∧ mixCollected [10, 20, 31] = 20 ∧ mixCollected [100] ≠ 50 := by
  decide

/-- C2: the frame assembled by `readStdout` from a process output stream
starting with byte 171 is `[171, 0]` — two bytes, one consumed stream byte —
because a fresh frame buffer reports wrapper length `-1` and a single write
brings it to `0`, ending assembly.  It is not `960 × channels ×
(frameDuration/20)` sample units: for `RawTranscodeOptions` that would be
1920 samples (3840 bytes), and `PCMFrameLen` is never consulted by
`readStdout`. -/
theorem readStdout_first_frame_two_bytes :
    firstFrame [171, 205] = some [171, 0] ∧ firstFrameRest [171, 205] = [205] ∧
    pcmFrameLen rawTranscodeOptions = 1920 ∧
    Option.map List.length (firstFrame [171, 205]) = some 2 ∧ (2 : Nat) ≠ 2 * 1920 := by
  decide

/-- C3 counterexample: `TranscodeOptions.Validate` never checks `Bitrate`,
so a session is constructed (and the run goroutine spawned) for a Bitrate of
500, far outside the documented 8-128 range, refuting the claim that every
numeric field out of its documented range fails construction. -/
theorem validate_accepts_out_of_range_bitrate :
    transcodeMemConstruct { stdTranscodeOptions with Bitrate := 500 } = Except.ok () ∧
    ({ stdTranscodeOptions with Bitrate := 500 } : TranscodeOptions).Bitrate > 128 :=
  ⟨rfl, by decide⟩

/-- C3 amended: construction via `TranscodeMem`/`TranscodeFile` succeeds
exactly when Volume, FrameDuration, PacketLoss, Application,
CompressionLevel and Threads are within their documented ranges — Bitrate
(and Channels/SampleRate) are not validated at all, so out-of-range values
there are passed through rather than rejected; the checked fields are
rejected with an error before any session exists, never clamped. -/
theorem construct_ok_iff_checked_ranges :
    ∀ opt : TranscodeOptions,
      (transcodeMemConstruct opt = Except.ok () ↔
        (0 ≤ opt.Volume ∧ opt.Volume ≤ 512) ∧
        (opt.FrameDuration = 20 ∨ opt.FrameDuration = 40 ∨ opt.FrameDuration = 60) ∧
        (0 ≤ opt.PacketLoss ∧ opt.PacketLoss ≤ 100) ∧
        (opt.Application = ("audio") ∨ opt.Application = ("voip") ∨
          opt.Application = ("lowdelay") ∨ opt.Application = ("")) ∧
        (0 ≤ opt.CompressionLevel ∧ opt.CompressionLevel ≤ 10) ∧
        0 ≤ opt.Threads) := by
  intro opt
  have hc : transcodeMemConstruct opt = Except.ok () ↔ validate opt = none := by
    unfold transcodeMemConstruct
    cases validate opt <;> simp
  rw [hc]
  unfold validate
  constructor
  · intro h
    split_ifs at h with h1 h2 h3 h4 h5 h6
    all_goals try simp at h
    exact ⟨by omega, by omega, by omega, by tauto, by omega, by omega⟩
  · intro hr
    split_ifs with h1 h2 h3 h4 h5 h6
    · exact absurd h1 (by omega)
    · exact absurd h2 (by omega)
    · exact absurd h3 (by omega)
    · exact absurd h4 (by tauto)
    · exact absurd h5 (by omega)
    · exact absurd h6 (by omega)
    · rfl

/-- C4: each iteration of the mixing loop reads into a one-byte buffer
(`make([]byte, 1)`, part_000 line 222) — half of one 16-bit sample unit — and
then decodes it with `binary.LittleEndian.Uint16`, which requires two bytes
and panics on any one-byte slice; so the loop panics on the first successful
read instead of never panicking. -/
theorem mux_sample_decode_panics :
    (∀ b : Nat, binaryLittleEndianUint16 (List.replicate 1 b) = none) ∧
    muxSampleBuf.length = 1 ∧ binaryLittleEndianUint16 muxSampleBuf = none :=
  ⟨fun _ => rfl, rfl, rfl⟩

/-- C5: the end-of-stream branch of the mixing loop calls
`MuxSession.RemoveSource` while the loop's own goroutine already holds the
engine mutex (locked at part_000 line 211, released only at line 242), and
`sync.Mutex` is not reentrant, so the removal blocks forever: the source is
never removed and the loop stops.  The same call with the lock free removes
the source normally. -/
theorem mux_eof_removal_deadlocks :
    muxLoopEOFBranch [7] 7 = none ∧ removeSourceOutcome false [7] 7 = some ([], true) := by
  decide

/-- C6 counterexample: when `ffmpeg.Start()` fails, `TranscodeSession.run`
closes the frame queue and returns without assigning `session.err`
(transcoder.go lines 260-265 assign only the local `err`), so the triggering
error is not retrievable via `Error()`, refuting the claim. -/
theorem spawn_failure_error_not_stored :
    (runSpawnPhase false false true).queueClosed = true ∧
    (runSpawnPhase false false true).storedErr = none ∧
    (runSpawnPhase false false true).storedErr ≠ some SpawnErr.startFail := by
  decide

/-- C6 amended: every spawn-phase failure (stdout pipe, stderr pipe, or
process start) closes the frame queue immediately — so a waiting
`ReadFrame` unblocks with end-of-stream rather than hanging — and leaves the
session not running, but stores no error: `Error()` returns nil afterwards. -/
theorem spawn_failure_closes_queue_without_error :
    ∀ so se st : Bool, (so = true ∨ se = true ∨ st = true) →
      (runSpawnPhase so se st).queueClosed = true ∧
      (runSpawnPhase so se st).storedErr = none ∧
      (runSpawnPhase so se st).running = false ∧
      readFrameStep true [] = some (Except.error ()) := by
  intro so se st h
  cases so <;> cases se <;> cases st
  all_goals simp_all [runSpawnPhase, readFrameStep]

/-- C6 witness: the amended statement instantiated at a concrete
`ffmpeg.Start()` failure. -/
theorem spawn_failure_closes_queue_without_error_witness :
    (runSpawnPhase false false true).queueClosed = true ∧
    (runSpawnPhase false false true).storedErr = none ∧
    (runSpawnPhase false false true).running = false ∧
    readFrameStep true [] = some (Except.error ()) :=
  spawn_failure_closes_queue_without_error false false true (Or.inr (Or.inr rfl))

/-- C7: `CrunchMiniBuffer` is not a FIFO byte buffer: writing one byte to a
fresh adapter succeeds with `(1, nil)`, but the immediately following read
returns `(0, io.EOF)` with no data instead of the written byte, because reads
and writes share the single `crunch` cursor and `Write` leaves it positioned
after the written data (the wrapper length is then 0). -/
theorem buffer_read_after_write_eof :
    (cmbWrite freshMiniBuffer [5]).2 = (1, none) ∧
    cmbRead (cmbWrite freshMiniBuffer [5]).1 1 =
      ⟨(cmbWrite freshMiniBuffer [5]).1, [], 0, some GoError.eof⟩ := by
  decide

/-- C8: `Stop()` on a session that is not running (or has no process yet)
returns the `not running` error without sending a kill and without touching
session state; on a running session it sends exactly the kill signal and
still leaves the state unchanged, so repeating `Stop` behaves identically
(idempotent); and the `ffmpeg.Wait()` handler discards the deliberate-stop
`signal: killed` error, so a deliberate stop never populates the stored
error. -/
theorem stop_contract :
    (∀ s : SessionState,
      ((s.running = false ∨ s.hasProcess = false) → stop s = (s, some StopErr.notRunning, false)) ∧
      (stop s).1 = s ∧
      stop (stop s).1 = stop s ∧
      (s.running = true → s.hasProcess = true → (stop s).2 = (none, true))) ∧
    ∀ es : ExitState, storeExitErr es (some ExitErr.signalKilled) = es := by
  constructor
  · intro s
    rcases s with ⟨r, p, e⟩
    cases r <;> cases p <;> simp [stop]
  · intro es
    rfl

/-- C8 witness: `Stop` on a concrete running session sends the kill signal
and returns no error; on a concrete stopped session it is a no-op returning
the `not running` error. -/
theorem stop_contract_witness :
    (stop ⟨true, true, none⟩).2 = (none, true) ∧
    stop ⟨false, true, none⟩ = (⟨false, true, none⟩, some StopErr.notRunning, false) :=
  ⟨(stop_contract.1 ⟨true, true, none⟩).2.2.2 rfl rfl,
   (stop_contract.1 ⟨false, true, none⟩).1 (Or.inl rfl)⟩

/-- C9: the FFmpeg argument list is a deterministic function of the options
(and the input designator) with exactly the documented mapping: the fixed
flags verbatim from their fields, the bitrate flag equal to `Bitrate * 1000`,
and the compression-level / application-profile / packet-loss / filter-graph
flag pairs included precisely when `CompressionLevel > 0`, `Application` is
set, `PacketLoss > 0`, and the filter string is non-empty, in that order,
followed by the output pipe. -/
theorem buildArgs_matches_documented_mapping :
    ∀ (inFile : String) (opt : TranscodeOptions),
      buildArgs inFile opt =
        ["-stats", "-i", inFile, "-map", "0:a",
         "-acodec", opt.Codec, "-f", opt.Format, "-vbr", vbrStr opt,
         "-vol", toString opt.Volume, "-ar", toString opt.SampleRate,
         "-ac", toString opt.Channels, "-b:a", toString (opt.Bitrate * 1000),
         "-frame_duration", toString opt.FrameDuration, "-threads", toString opt.Threads] ++
        (if opt.CompressionLevel > 0 then ["-compression_level", toString opt.CompressionLevel] else []) ++
        (if opt.Application ≠ ("") then ["-application", opt.Application] else []) ++
        (if opt.PacketLoss > 0 then ["-packet_loss", toString opt.PacketLoss] else []) ++
        (if opt.AudioFilter ≠ ("") then ["-af", opt.AudioFilter] else []) ++
        ["pipe:1"] := by
  intro inFile opt
  unfold buildArgs
  split_ifs <;> simp

/-- C10: calling `TranscodeMem` or `TranscodeFile` with a nil options
pointer panics inside `Validate` (nil dereference) rather than returning an
error or falling back to `StdTranscodeOptions`; and any session the public
constructors do build carries the non-nil options it was given, so the
nil-options default inside `run` never fires for it. -/
theorem nil_options_panic_and_default_unreachable :
    transcodeMemGo none = ConstructOutcome.panicNilDeref ∧
    transcodeFileGo none = ConstructOutcome.panicNilDeref ∧
    ∀ (o : TranscodeOptions) (s : Option TranscodeOptions),
      transcodeMemGo (some o) = ConstructOutcome.constructed s →
        s ≠ none ∧ runOptionsResolved s = o := by
  refine ⟨rfl, rfl, ?_⟩
  intro o s h
  simp only [transcodeMemGo, validateNilable] at h
  cases hv : validate o <;> (rw [hv] at h; simp_all)
  subst h
  exact ⟨by simp, rfl⟩

/-- C10 witness: instantiated at the standard options, which validate
cleanly, so the constructed session's options are non-nil and resolve to
themselves inside `run`. -/
theorem nil_options_panic_and_default_unreachable_witness :
    (some stdTranscodeOptions ≠ (none : Option TranscodeOptions)) ∧
    runOptionsResolved (some stdTranscodeOptions) = stdTranscodeOptions :=
  nil_options_panic_and_default_unreachable.2.2 stdTranscodeOptions (some stdTranscodeOptions)
    (by decide)

end Ffgoconv
